import Mathlib

/-!
Verification development for VlessLinker (src/vlesslinker.py).

The Python source is shallowly embedded: JSON values become the inductive
`Json`, Python exceptions become the `PyErr` type, byte strings become
`List Nat` (each element < 256 by construction), and the two external
libraries the code calls — `zlib` (raw deflate) and the `json` module's
string-level parser — are taken as function parameters whose documented
contracts appear as hypotheses of the theorems that need them.
All other behavior (base64, padding, URL parsing, query-string parsing,
field extraction, URL building) is translated directly from the source.
-/

namespace VlessLinker

/-- JSON values as produced by `json.loads`: objects keep insertion order,
numbers are modelled as integers (no claim involves float literals). -/
inductive Json where
  | null : Json
  | bool (b : Bool) : Json
  | num (n : Int) : Json
  | str (s : String) : Json
  | arr (elems : List Json) : Json
  | obj (fields : List (String × Json)) : Json

/-- Python exceptions relevant to the embedded code.  `keyError` stores the
already-`str()`-formatted form of the missing key (Python renders
`str(KeyError('k'))` as `'k'` and `str(KeyError(0))` as `0`). -/
inductive PyErr where
  | valueError (msg : String) : PyErr
  | typeError (msg : String) : PyErr
  | keyError (reprKey : String) : PyErr
  | indexError (msg : String) : PyErr
  | attributeError (msg : String) : PyErr

/-- `str(e)` for the exceptions above, as interpolated by
`f"Error generating VLESS URL: {e}"` in the source. -/
def pyErrStr : PyErr → String
  | .valueError m => m
  | .typeError m => m
  | .keyError k => k
  | .indexError m => m
  | .attributeError m => m

/-- First-match association lookup, the semantics of `d[k]` / `k in d`
for a JSON object (keys are unique in `json.loads` output, so first
match is the dict lookup). -/
def jlookup : List (String × Json) → String → Option Json
  | [], _ => none
  | (k', v) :: rest, k => if k = k' then some v else jlookup rest k

/-- Python type name of a decoded JSON value (`type(x).__name__`). -/
def pyTypeName : Json → String
  | .null => "NoneType"
  | .bool _ => "bool"
  | .num _ => "int"
  | .str _ => "str"
  | .arr _ => "list"
  | .obj _ => "dict"

/-- Python truthiness of a decoded JSON value (`if x:`). -/
def truthy : Json → Bool
  | .null => false
  | .bool b => b
  | .num n => n != 0
  | .str s => s != ""
  | .arr l => !l.isEmpty
  | .obj l => !l.isEmpty

/-- Python `repr` of a decoded JSON value, used when an f-string
interpolates a list or dict.  String escaping inside `repr` is modelled
only by the surrounding single quotes (no claim exercises quoting of
special characters inside container reprs). -/
def pyRepr : Json → String
  | .null => "None"
  | .bool true => "True"
  | .bool false => "False"
  | .num n => toString n
  | .str s => "'" ++ s ++ "'"
  | .arr l => "[" ++ String.intercalate ", " (l.attach.map fun x => pyRepr x.1) ++ "]"
  | .obj l =>
      "\x7b" ++ String.intercalate ", "
        (l.attach.map fun x => "'" ++ x.1.1 ++ "': " ++ pyRepr x.1.2) ++ "\x7d"
decreasing_by
  · have h := List.sizeOf_lt_of_mem x.2
    simp only [Json.arr.sizeOf_spec]
    omega
  · obtain ⟨⟨a, b⟩, hm⟩ := x
    have h := List.sizeOf_lt_of_mem hm
    simp only [Json.obj.sizeOf_spec, Prod.mk.sizeOf_spec] at *
    omega

/-- Python `str` of a decoded JSON value (`f"{x}"`); `str` equals `repr`
for every decoded value except strings themselves. -/
def pyStr : Json → String
  | .null => "None"
  | .bool true => "True"
  | .bool false => "False"
  | .num n => toString n
  | .str s => s
  | .arr l => pyRepr (.arr l)
  | .obj l => pyRepr (.obj l)

/-- `x[k]` with a string key. -/
def pyIndexStr (j : Json) (k : String) : Except PyErr Json :=
  match j with
  | .obj kvs =>
      match jlookup kvs k with
      | some v => .ok v
      | none => .error (.keyError ("'" ++ k ++ "'"))
  | .arr _ => .error (.typeError "list indices must be integers or slices, not str")
  | .str _ => .error (.typeError "string indices must be integers")
  | v => .error (.typeError ("'" ++ pyTypeName v ++ "' object is not subscriptable"))

/-- `x[i]` with integer index `0`..; a JSON object never holds an integer
key, so indexing a dict with `0` is a `KeyError`. -/
def pyIndexNat (j : Json) (i : Nat) : Except PyErr Json :=
  match j with
  | .arr xs =>
      match xs.get? i with
      | some v => .ok v
      | none => .error (.indexError "list index out of range")
  | .obj _ => .error (.keyError (toString i))
  | .str s =>
      match s.data.get? i with
      | some c => .ok (.str (String.mk [c]))
      | none => .error (.indexError "string index out of range")
  | v => .error (.typeError ("'" ++ pyTypeName v ++ "' object is not subscriptable"))

/-- `x.get(k, default)`: only dicts have `.get`. -/
def pyGet (j : Json) (k : String) (dflt : Json) : Except PyErr Json :=
  match j with
  | .obj kvs => .ok ((jlookup kvs k).getD dflt)
  | v => .error (.attributeError ("'" ++ pyTypeName v ++ "' object has no attribute 'get'"))

end VlessLinker

namespace VlessLinker

/-! ### Character and list-splitting helpers -/

/-- Whitespace for Python `str.strip()` (ASCII whitespace; the inputs the
claims quantify over contain none). -/
def pySpace (c : Char) : Bool :=
  c = ' ' || c = '\t' || c = '\n' || c = '\x0d' || c = '\x0b' || c = '\x0c'

/-- Python `str.strip()`. -/
def pyStrip (l : List Char) : List Char :=
  ((l.dropWhile pySpace).reverse.dropWhile pySpace).reverse

/-- Split at the first occurrence of `sep`: returns the part before it and,
when `sep` occurs, the part after it. -/
def splitFirst (sep : Char) : List Char → List Char × Option (List Char)
  | [] => ([], none)
  | c :: rest =>
    if c = sep then ([], some rest)
    else
      let r := splitFirst sep rest
      (c :: r.1, r.2)

/-- Split at the last occurrence of `sep` (Python `str.rpartition`):
returns the part before it (when `sep` occurs) and the part after it. -/
def splitLast (sep : Char) (l : List Char) : Option (List Char) × List Char :=
  match splitFirst sep l.reverse with
  | (_, none) => (none, l)
  | (revPost, some revPre) => (some revPre.reverse, revPost.reverse)

/-- Split on every occurrence of `sep` (Python `str.split(sep)`). -/
def splitAll (sep : Char) : List Char → List (List Char)
  | [] => [[]]
  | c :: rest =>
    let r := splitAll sep rest
    if c = sep then [] :: r
    else
      match r with
      | h :: t => (c :: h) :: t
      | [] => [[c]]

def isAsciiAlpha (c : Char) : Bool := ('a' ≤ c && c ≤ 'z') || ('A' ≤ c && c ≤ 'Z')

def isAsciiDigit (c : Char) : Bool := '0' ≤ c && c ≤ '9'

/-- Characters allowed in a URL scheme (`urllib.parse.scheme_chars`). -/
def isSchemeChar (c : Char) : Bool :=
  isAsciiAlpha c || isAsciiDigit c || c = '+' || c = '-' || c = '.'

/-- ASCII lowercasing, the semantics of `str.lower()` on hostnames
(non-ASCII case mapping is not exercised by any claim). -/
def lowerChars (l : List Char) : List Char := l.map Char.toLower

def hexVal (c : Char) : Option Nat :=
  if '0' ≤ c && c ≤ '9' then some (c.toNat - 48)
  else if 'a' ≤ c && c ≤ 'f' then some (c.toNat - 87)
  else if 'A' ≤ c && c ≤ 'F' then some (c.toNat - 55)
  else none

def digitsToNat (l : List Char) : Nat := l.foldl (fun acc c => acc * 10 + (c.toNat - 48)) 0

/-! ### UTF-8 decoding

`utf8Replace` is the CPython `bytes.decode('utf-8', errors='replace')`
used by `urllib.parse.unquote`; `utf8Strict` is the strict decode used on
`vpn://` payload bytes.  Both follow the standard UTF-8 state machine;
on error the replace variant substitutes U+FFFD per maximal subpart. -/

def replChar : Char := '�'

def isCont (b : Nat) : Bool := 128 ≤ b && b < 192

/-- One fueled step suffices per byte: fuel is instantiated with the list
length, which bounds the number of decoding steps. -/
def utf8ReplaceF : Nat → List Nat → List Char
  | _, [] => []
  | 0, _ => []
  | fuel + 1, b :: rest =>
    if b < 128 then Char.ofNat b :: utf8ReplaceF fuel rest
    else if 194 ≤ b && b ≤ 223 then
      match rest with
      | b2 :: r2 =>
        if isCont b2 then Char.ofNat ((b - 192) * 64 + (b2 - 128)) :: utf8ReplaceF fuel r2
        else replChar :: utf8ReplaceF fuel rest
      | [] => [replChar]
    else if 224 ≤ b && b ≤ 239 then
      match rest with
      | b2 :: r2 =>
        if (if b = 224 then 160 else 128) ≤ b2 && b2 ≤ (if b = 237 then 159 else 191) then
          match r2 with
          | b3 :: r3 =>
            if isCont b3 then
              Char.ofNat ((b - 224) * 4096 + (b2 - 128) * 64 + (b3 - 128)) :: utf8ReplaceF fuel r3
            else replChar :: utf8ReplaceF fuel r2
          | [] => [replChar]
        else replChar :: utf8ReplaceF fuel rest
      | [] => [replChar]
    else if 240 ≤ b && b ≤ 244 then
      match rest with
      | b2 :: r2 =>
        if (if b = 240 then 144 else 128) ≤ b2 && b2 ≤ (if b = 244 then 143 else 191) then
          match r2 with
          | b3 :: r3 =>
            if isCont b3 then
              match r3 with
              | b4 :: r4 =>
                if isCont b4 then
                  Char.ofNat
                    ((b - 240) * 262144 + (b2 - 128) * 4096 + (b3 - 128) * 64 + (b4 - 128))
                    :: utf8ReplaceF fuel r4
                else replChar :: utf8ReplaceF fuel r3
              | [] => [replChar]
            else replChar :: utf8ReplaceF fuel r2
          | [] => [replChar]
        else replChar :: utf8ReplaceF fuel rest
      | [] => [replChar]
    else replChar :: utf8ReplaceF fuel rest

def utf8Replace (l : List Nat) : List Char := utf8ReplaceF l.length l

def utf8StrictF : Nat → List Nat → Option (List Char)
  | _, [] => some []
  | 0, _ => none
  | fuel + 1, b :: rest =>
    if b < 128 then (utf8StrictF fuel rest).map (Char.ofNat b :: ·)
    else if 194 ≤ b && b ≤ 223 then
      match rest with
      | b2 :: r2 =>
        if isCont b2 then (utf8StrictF fuel r2).map (Char.ofNat ((b - 192) * 64 + (b2 - 128)) :: ·)
        else none
      | [] => none
    else if 224 ≤ b && b ≤ 239 then
      match rest with
      | b2 :: r2 =>
        if (if b = 224 then 160 else 128) ≤ b2 && b2 ≤ (if b = 237 then 159 else 191) then
          match r2 with
          | b3 :: r3 =>
            if isCont b3 then
              (utf8StrictF fuel r3).map
                (Char.ofNat ((b - 224) * 4096 + (b2 - 128) * 64 + (b3 - 128)) :: ·)
            else none
          | [] => none
        else none
      | [] => none
    else if 240 ≤ b && b ≤ 244 then
      match rest with
      | b2 :: r2 =>
        if (if b = 240 then 144 else 128) ≤ b2 && b2 ≤ (if b = 244 then 143 else 191) then
          match r2 with
          | b3 :: r3 =>
            if isCont b3 then
              match r3 with
              | b4 :: r4 =>
                if isCont b4 then
                  (utf8StrictF fuel r4).map
                    (Char.ofNat
                      ((b - 240) * 262144 + (b2 - 128) * 4096 + (b3 - 128) * 64 + (b4 - 128)) :: ·)
                else none
              | [] => none
            else none
          | [] => none
        else none
      | [] => none
    else none

/-- Strict UTF-8 decode (`bytes.decode('utf-8')`), `none` on invalid input. -/
def utf8Strict (l : List Nat) : Option (List Char) := utf8StrictF l.length l

end VlessLinker

namespace VlessLinker

/-! ### `urllib.parse.unquote` and `parse_qs` -/

/-- Accumulator-based percent-decoding: `acc` holds the bytes of the
current maximal run of `%XX` escapes (reversed); runs are flushed through
the replace-mode UTF-8 decoder, exactly as `urllib.parse.unquote` does
with its default `encoding='utf-8', errors='replace'`.  An invalid escape
(no two hex digits after `%`) is kept literally. -/
def unquoteAuxF : Nat → List Char → List Nat → List Char
  | _, [], acc => utf8Replace acc.reverse
  | 0, l, acc => utf8Replace acc.reverse ++ l
  | fuel + 1, '%' :: a :: b :: rest, acc =>
    match hexVal a, hexVal b with
    | some hi, some lo => unquoteAuxF fuel rest ((hi * 16 + lo) :: acc)
    | _, _ => utf8Replace acc.reverse ++ '%' :: unquoteAuxF fuel (a :: b :: rest) []
  | fuel + 1, c :: rest, acc => utf8Replace acc.reverse ++ c :: unquoteAuxF fuel rest []

def unquote (l : List Char) : List Char := unquoteAuxF l.length l []

/-- `str.replace('+', ' ')`, applied by `parse_qsl` before unquoting. -/
def plusToSpace (l : List Char) : List Char := l.map fun c => if c = '+' then ' ' else c

/-- `urllib.parse.parse_qsl(qs)` with its defaults: split on `&`, drop
fields without `=` and fields with an empty value (`keep_blank_values`
is false), then `+`-to-space and percent-decode name and value. -/
def parseQsl (qs : List Char) : List (String × String) :=
  (splitAll '&' qs).filterMap fun nameValue =>
    if nameValue.isEmpty then none
    else
      match splitFirst '=' nameValue with
      | (_, none) => none
      | (name, some value) =>
        if value.isEmpty then none
        else some (String.mk (unquote (plusToSpace name)), String.mk (unquote (plusToSpace value)))

/-- `parse_qs(qs).get(k, [d])[0]`: `parse_qs` groups `parse_qsl` pairs by
key in order of first appearance, so element `[0]` is the value of the
first pair carrying the key. -/
def qsFirst (ps : List (String × String)) (k d : String) : String :=
  match ps.find? (fun p => p.1 == k) with
  | some p => p.2
  | none => d

/-! ### `urllib.parse.urlparse`, restricted to the fields the source reads

The source only uses `username`, `hostname`, `port` and `query`, so the
embedding keeps the scheme, netloc, query and fragment components (the
path is parsed past but never read). -/

structure UrlParts where
  scheme : List Char
  netloc : List Char
  query : List Char
  fragment : List Char

/-- `urllib.parse._UNSAFE_URL_BYTES_TO_REMOVE`: `urlsplit` deletes every
tab, carriage return and newline from the URL before any parsing. -/
def removeUnsafe (l : List Char) : List Char :=
  l.filter fun c => c ≠ '\t' && c ≠ '\x0d' && c ≠ '\n'

/-- `urllib.parse.urlsplit` (component extraction): remove the unsafe
bytes, strip a well-formed `scheme:`, take the netloc after `//` up to
the first of `/?#`, then split off the fragment after the first `#` and
the query after the first `?`.  The bracketed-netloc validation that
`urlsplit` performs on top of this is `pyUrlsplit` below. -/
def urlsplitLite (url0 : List Char) : UrlParts :=
  let url := removeUnsafe url0
  let schemeRest : List Char × List Char :=
    match splitFirst ':' url with
    | (front, some back) =>
      match front with
      | [] => ([], url)
      | f0 :: _ =>
        if isAsciiAlpha f0 && front.all isSchemeChar then (lowerChars front, back)
        else ([], url)
    | (_, none) => ([], url)
  let netlocRest : List Char × List Char :=
    match schemeRest.2 with
    | '/' :: '/' :: r =>
      let nl := r.takeWhile fun c => c ≠ '/' && c ≠ '?' && c ≠ '#'
      (nl, r.drop nl.length)
    | other => ([], other)
  let fragSplit : List Char × List Char :=
    match splitFirst '#' netlocRest.2 with
    | (a, some b) => (a, b)
    | (a, none) => (a, [])
  let query : List Char :=
    match splitFirst '?' fragSplit.1 with
    | (_, some q) => q
    | (_, none) => []
  ⟨schemeRest.1, netlocRest.1, query, fragSplit.2⟩

/-- The netloc condition under which `urlsplit` raises
`ValueError("Invalid IPv6 URL")`: a `[` without `]` or a `]` without
`[`.  A URL without a `//`-netloc has an empty netloc, for which this
is vacuously false, matching the check being inside the netloc branch. -/
def netlocInvalidBrackets (netloc : List Char) : Bool :=
  (netloc.contains '[' && !netloc.contains ']') ||
    (netloc.contains ']' && !netloc.contains '[')

/-- `urllib.parse.urlsplit` / `urlparse` as called on line 68: component
extraction plus the bracketed-netloc validation, which raises before any
field of the result is read. -/
def pyUrlsplit (url : List Char) : Except PyErr UrlParts :=
  let parts := urlsplitLite url
  if netlocInvalidBrackets parts.netloc then .error (.valueError "Invalid IPv6 URL")
  else .ok parts

/-- `SplitResult._hostinfo`: the host and raw port text of a netloc
(part after the last `@`; bracketed IPv6 hosts keep the text inside
`[...]`; an empty port collapses to `None`). -/
def hostinfo (netloc : List Char) : List Char × Option (List Char) :=
  let hi := (splitLast '@' netloc).2
  let hp : List Char × Option (List Char) :=
    match splitFirst '[' hi with
    | (_, some afterBr) =>
      let hk := splitFirst ']' afterBr
      (hk.1, match hk.2 with
             | some afterKet => (splitFirst ':' afterKet).2
             | none => none)
    | (_, none) => splitFirst ':' hi
  (hp.1, match hp.2 with
         | some [] => none
         | p => p)

/-- `SplitResult.username`: the userinfo (before the last `@`) up to the
first `:`, or `None` when the netloc has no `@`. -/
def pyUsername (netloc : List Char) : Option String :=
  match (splitLast '@' netloc).1 with
  | none => none
  | some ui => some (String.mk (splitFirst ':' ui).1)

/-- `SplitResult.hostname`: the host lowercased, `None` when empty. -/
def pyHostname (netloc : List Char) : Option String :=
  match (hostinfo netloc).1 with
  | [] => none
  | h => some (String.mk (lowerChars h))

/-- `SplitResult.port` (CPython ≥ 3.6): `None` when absent, the integer
value when the text is ASCII digits and at most 65535, and `ValueError`
otherwise ("Port could not be cast to integer value as ..." for
non-digit text, "Port out of range 0-65535" above 65535). -/
def pyPort (ps : Option (List Char)) : Except PyErr (Option Nat) :=
  match ps with
  | none => .ok none
  | some s =>
    if !s.isEmpty && s.all isAsciiDigit then
      let n := digitsToNat s
      if n ≤ 65535 then .ok (some n)
      else .error (.valueError "Port out of range 0-65535")
    else
      .error (.valueError ("Port could not be cast to integer value as '" ++ String.mk s ++ "'"))

end VlessLinker

namespace VlessLinker

/-! ### `from_vless_url` (src/vlesslinker.py lines 67-125) -/

/-- A `urlparse` component that may be `None` lands in the JSON tree as
`null` (Python `None` serializes to JSON `null`). -/
def optStr : Option String → Json
  | some s => .str s
  | none => .null

/-- The configuration dictionary literal returned by `from_vless_url`
(lines 84-125), with the parsed components spliced in. -/
def mkVlessConfig (uuid address : Option String) (port : Nat)
    (network security publicKey serverName fingerprint shortId flow spiderx : String) : Json :=
  .obj
    [("inbounds",
      .arr [.obj
        [("listen", .str "127.0.0.1"),
         ("port", .num 10808),
         ("protocol", .str "socks"),
         ("settings", .obj [("udp", .bool true)])]]),
     ("log", .obj [("loglevel", .str "error")]),
     ("outbounds",
      .arr [.obj
        [("protocol", .str "vless"),
         ("settings",
          .obj [("vnext",
            .arr [.obj
              [("address", optStr address),
               ("port", .num port),
               ("users",
                .arr [.obj
                  [("id", optStr uuid),
                   ("encryption", .str "none"),
                   ("flow", .str flow)]])]])]),
         ("streamSettings",
          .obj [("network", .str network),
                ("security", .str security),
                ("realitySettings",
                 .obj [("serverName", .str serverName),
                       ("fingerprint", .str fingerprint),
                       ("publicKey", .str publicKey),
                       ("shortId", .str shortId),
                       ("spiderX", .str spiderx)])])]])]

/-- `from_vless_url`: parse the URI (`urlparse` itself raises
`Invalid IPv6 URL` on a mismatched-bracket netloc), then fail exactly
when `int(parsed.port)` fails (absent port raises `TypeError` from
`int(None)`, non-digit or out-of-range port raises `ValueError` inside
the `port` property), and otherwise build the configuration with the
query defaults of lines 75-82. -/
def from_vless_url (vless_url : String) : Except PyErr Json :=
  match pyUrlsplit vless_url.data with
  | .error e => .error e
  | .ok parsed =>
  let uuid := pyUsername parsed.netloc
  let address := pyHostname parsed.netloc
  match pyPort (hostinfo parsed.netloc).2 with
  | .error e => .error e
  | .ok none =>
    .error (.typeError
      "int() argument must be a string, a bytes-like object or a real number, not 'NoneType'")
  | .ok (some port) =>
    let params := parseQsl parsed.query
    let network := qsFirst params "type" "tcp"
    let security := qsFirst params "security" "none"
    let publicKey := qsFirst params "pbk" ""
    let serverName := qsFirst params "sni" ""
    let fingerprint := qsFirst params "fp" ""
    let shortId := qsFirst params "sid" ""
    let flow := qsFirst params "flow" ""
    let spiderx := qsFirst params "spx" ""
    .ok (mkVlessConfig uuid address port network security publicKey serverName fingerprint
          shortId flow spiderx)

/-! ### `get_vless_name` and `to_vless_url` (lines 127-182) -/

/-- `get_vless_name(address)`: the interactive prompt, modelled by its
console response — `some r` is the line `input()` returned, `none` is a
`KeyboardInterrupt`.  The stripped response is used when non-empty,
otherwise the address value itself is returned. -/
def get_vless_name (address : Json) (response : Option String) : Json :=
  match response with
  | some r =>
    let name := String.mk (pyStrip r.data)
    if name = "" then address else .str name
  | none => address

/-- The eleven values read out of the configuration by lines 138-156,
in source order. -/
structure VlessFields where
  uuid : Json
  address : Json
  port : Json
  flow : Json
  network : Json
  security : Json
  serverName : Json
  fingerprint : Json
  publicKey : Json
  shortId : Json
  spiderX : Json

/-- The body of `to_vless_url`'s `try` block up to the field reads:
each subscript / `.get` in source order, short-circuiting on the first
raised exception. -/
def extractVless (data : Json) : Except PyErr VlessFields := do
  let outb ← pyIndexNat (← pyIndexStr data "outbounds") 0
  let vnext ← pyIndexNat (← pyIndexStr (← pyIndexStr outb "settings") "vnext") 0
  let user ← pyIndexNat (← pyIndexStr vnext "users") 0
  let stream ← pyIndexStr outb "streamSettings"
  let uuid ← pyIndexStr user "id"
  let address ← pyIndexStr vnext "address"
  let port ← pyIndexStr vnext "port"
  let flow ← pyGet user "flow" (.str "")
  let network ← pyGet stream "network" (.str "tcp")
  let security ← pyGet stream "security" (.str "none")
  let rs ← pyGet stream "realitySettings" (.obj [])
  let serverName ← pyGet rs "serverName" (.str "")
  let fingerprint ← pyGet rs "fingerprint" (.str "")
  let publicKey ← pyGet rs "publicKey" (.str "")
  let shortId ← pyGet rs "shortId" (.str "")
  let spiderX ← pyGet rs "spiderX" (.str "")
  return ⟨uuid, address, port, flow, network, security, serverName, fingerprint, publicKey,
          shortId, spiderX⟩

/-- The URL accumulation of lines 158-174: fixed head, then one
conditional append per field, in source order. -/
def buildVlessUrl (f : VlessFields) : String :=
  "vless://" ++ pyStr f.uuid ++ "@" ++ pyStr f.address ++ ":" ++ pyStr f.port
    ++ "?encryption=none"
    ++ (if truthy f.flow then "&flow=" ++ pyStr f.flow else "")
    ++ (if truthy f.security then "&security=" ++ pyStr f.security else "")
    ++ (if truthy f.serverName then "&sni=" ++ pyStr f.serverName else "")
    ++ (if truthy f.fingerprint then "&fp=" ++ pyStr f.fingerprint else "")
    ++ (if truthy f.publicKey then "&pbk=" ++ pyStr f.publicKey else "")
    ++ (if truthy f.shortId then "&sid=" ++ pyStr f.shortId else "")
    ++ (if truthy f.spiderX then "&spx=" ++ pyStr f.spiderX else "")
    ++ (if truthy f.network then "&type=" ++ pyStr f.network else "")

/-- Result of `to_vless_url`: either the returned URL string or the
`sys.exit(...)` of line 182, which terminates the process with the given
message instead of returning to the caller. -/
inductive UrlResult where
  | ok (url : String)
  | sysExit (msg : String)
deriving DecidableEq

/-- `to_vless_url`: any exception in the `try` block reaches the
`except Exception` handler and calls `sys.exit`; on success the prompt
result is appended after `#`. -/
def to_vless_url (data : Json) (nameResponse : Option String) : UrlResult :=
  match extractVless data with
  | .ok f => .ok (buildVlessUrl f ++ "#" ++ pyStr (get_vless_name f.address nameResponse))
  | .error e => .sysExit ("Error generating VLESS URL: " ++ pyErrStr e)

end VlessLinker

namespace VlessLinker

/-! ### base64url (`base64.urlsafe_b64decode` and the claim-side encoder)

`urlsafe_b64decode` translates `-_` to `+/` and decodes; the embedding
folds the translation into the character table, so both alphabets are
accepted.  Stray non-alphabet characters make the decode fail (binascii's
lenient skipping of foreign characters is not exercised by any claim),
and `=` is only recognized as the final one or two padding characters. -/

def sextetChar (n : Nat) : Char :=
  if n < 26 then Char.ofNat (65 + n)
  else if n < 52 then Char.ofNat (97 + (n - 26))
  else if n < 62 then Char.ofNat (48 + (n - 52))
  else if n = 62 then '-'
  else '_'

def charSextet (c : Char) : Option Nat :=
  if 'A' ≤ c && c ≤ 'Z' then some (c.toNat - 65)
  else if 'a' ≤ c && c ≤ 'z' then some (c.toNat - 71)
  else if '0' ≤ c && c ≤ '9' then some (c.toNat + 4)
  else if c = '-' || c = '+' then some 62
  else if c = '_' || c = '/' then some 63
  else none

/-- base64url encoding with padding, three input bytes per four output
characters (the layout `vpn://` payload producers use). -/
def b64encode : List Nat → List Char
  | b1 :: b2 :: b3 :: rest =>
    sextetChar (b1 / 4) :: sextetChar ((b1 % 4) * 16 + b2 / 16)
      :: sextetChar ((b2 % 16) * 4 + b3 / 64) :: sextetChar (b3 % 64) :: b64encode rest
  | [b1, b2] =>
    [sextetChar (b1 / 4), sextetChar ((b1 % 4) * 16 + b2 / 16), sextetChar ((b2 % 16) * 4), '=']
  | [b1] => [sextetChar (b1 / 4), sextetChar ((b1 % 4) * 16), '=', '=']
  | [] => []

/-- base64 decoding of a fully padded string, quad by quad; `none` on a
length not divisible by four, a non-alphabet character, or padding
anywhere but the end. -/
def b64decode : List Char → Option (List Nat)
  | [] => some []
  | a :: b :: c :: d :: rest =>
    if rest.isEmpty ∧ c = '=' ∧ d = '=' then do
      let s1 ← charSextet a
      let s2 ← charSextet b
      pure [s1 * 4 + s2 / 16]
    else if rest.isEmpty ∧ d = '=' then do
      let s1 ← charSextet a
      let s2 ← charSextet b
      let s3 ← charSextet c
      pure [s1 * 4 + s2 / 16, (s2 % 16) * 16 + s3 / 4]
    else do
      let s1 ← charSextet a
      let s2 ← charSextet b
      let s3 ← charSextet c
      let s4 ← charSextet d
      let r ← b64decode rest
      pure ((s1 * 4 + s2 / 16) :: ((s2 % 16) * 16 + s3 / 4) :: ((s3 % 4) * 64 + s4) :: r)
  | _ => none

/-- `int.from_bytes(raw_data[:4], 'big')`. -/
def beRead4 (l : List Nat) : Nat := l.foldl (fun acc b => acc * 256 + b) 0

/-- The claim-side four-byte big-endian length of `n` (`n < 2^32`). -/
def be32 (n : Nat) : List Nat :=
  [n / 16777216 % 256, n / 65536 % 256, n / 256 % 256, n % 256]

/-! ### `decode_vpn_url` (lines 15-65)

`zlib.decompress` and `json.loads` are external libraries, taken as the
parameters `decompress` (`none` models a raised `zlib.error`) and
`loadsS` (`none` models a raised JSON parse error); `loadsBytes` composes
the strict UTF-8 decode of the byte buffer with the string-level parser,
matching `json.loads(raw.decode('utf-8'))` — both a `UnicodeDecodeError`
and a `json.JSONDecodeError` are `ValueError`s, so both are caught alike
by the source's `except (zlib.error, ValueError)`. -/

def loadsBytes (loadsS : String → Option Json) (bs : List Nat) : Option Json :=
  (utf8Strict bs).bind fun cs => loadsS (String.mk cs)

/-- The `containers[0].xray.last_config` value, when the nested guards of
lines 56-62 all pass (dict with key `containers`, non-empty list, dict
with key `xray`, dict with key `last_config`); `none` when any guard
fails, in which case line 65 returns the value unchanged. -/
def wrapPath (j : Json) : Option Json :=
  match j with
  | .obj kvs =>
    match jlookup kvs "containers" with
    | some (.arr (c0 :: _)) =>
      match c0 with
      | .obj ckvs =>
        match jlookup ckvs "xray" with
        | some (.obj xkvs) => jlookup xkvs "last_config"
        | _ => none
      | _ => none
    | _ => none
  | _ => none

/-- Lines 55-65: unwrap the nested configuration if present.  When the
path exists, its value goes straight into `json.loads`, which raises a
`TypeError` for a non-string argument and propagates JSON parse errors
(this happens outside the `try` of lines 35-53). -/
def unwrap (loadsS : String → Option Json) (j : Json) : Except PyErr Json :=
  match wrapPath j with
  | none => .ok j
  | some (.str s) =>
    match loadsS s with
    | some inner => .ok inner
    | none => .error (.valueError "JSON decode error in last_config")
  | some v =>
    .error (.typeError ("the JSON object must be str, bytes or bytearray, not " ++ pyTypeName v))

/-- Lines 34-65 on the already base64-decoded buffer: the `try` block of
the compressed interpretation (`attempt` is `some` exactly when the
buffer is at least four bytes, decompression succeeds, the decompressed
length equals the big-endian prefix, and the result parses as JSON —
any of the `zlib.error`/`ValueError` exits of that block make it
`none`), the bare-JSON fallback on the whole original buffer, and the
final unwrap. -/
def decodeRaw (decompress : List Nat → Option (List Nat))
    (loadsS : String → Option Json) (raw : List Nat) : Except PyErr Json :=
  let attempt : Option Json :=
    if 4 ≤ raw.length then
      match decompress (raw.drop 4) with
      | some dec =>
        if dec.length = beRead4 (raw.take 4) then loadsBytes loadsS dec else none
      | none => none
    else none
  match attempt with
  | some j => unwrap loadsS j
  | none =>
    match loadsBytes loadsS raw with
    | some j => unwrap loadsS j
    | none => .error (.valueError "JSON decode error")

/-- `decode_vpn_url`: scheme check, strip, pad to a multiple of four,
base64-decode, then `decodeRaw` for the rest of the function.  The
Python error messages carry the underlying cause after a colon; the
embedding keeps only the fixed prefix. -/
def decode_vpn_url (decompress : List Nat → Option (List Nat))
    (loadsS : String → Option Json) (vpn_url : String) : Except PyErr Json :=
  if vpn_url.data.take 6 ≠ "vpn://".data then .error (.valueError "Invalid VPN URL format")
  else
    let encoded := pyStrip (vpn_url.data.drop 6)
    let padded :=
      encoded ++
        List.replicate (if encoded.length % 4 = 0 then 0 else 4 - encoded.length % 4) '='
    match b64decode padded with
    | none => .error (.valueError "Base64 decode error")
    | some raw => decodeRaw decompress loadsS raw

end VlessLinker

namespace VlessLinker

theorem charSextet_sextetChar : ∀ n, n < 64 → charSextet (sextetChar n) = some n := by decide

theorem sextetChar_ne_pad (n : Nat) : sextetChar n ≠ '=' := by
  by_cases h : n < 64
  · have key : ∀ m, m < 64 → sextetChar m ≠ '=' := by decide
    exact key n h
  · unfold sextetChar
    rw [if_neg (by omega), if_neg (by omega), if_neg (by omega), if_neg (by omega)]
    decide

theorem pySpace_sextetChar (n : Nat) : pySpace (sextetChar n) = false := by
  by_cases h : n < 64
  · have key : ∀ m, m < 64 → pySpace (sextetChar m) = false := by decide
    exact key n h
  · unfold sextetChar
    rw [if_neg (by omega), if_neg (by omega), if_neg (by omega), if_neg (by omega)]
    decide

theorem b64decode_b64encode : ∀ bs : List Nat, (∀ b ∈ bs, b < 256) →
    b64decode (b64encode bs) = some bs
  | [], _ => rfl
  | [b1], h => by
    have hb1 : b1 < 256 := h b1 (by simp)
    simp only [b64encode, b64decode]
    rw [if_pos (by simp)]
    rw [charSextet_sextetChar _ (by omega), charSextet_sextetChar _ (by omega)]
    simp
    omega
  | [b1, b2], h => by
    have hb1 : b1 < 256 := h b1 (by simp)
    have hb2 : b2 < 256 := h b2 (by simp)
    simp only [b64encode, b64decode]
    rw [if_neg (by simp [sextetChar_ne_pad])]
    rw [if_pos (by simp)]
    rw [charSextet_sextetChar _ (by omega), charSextet_sextetChar _ (by omega),
      charSextet_sextetChar _ (by omega)]
    simp
    constructor <;> omega
  | b1 :: b2 :: b3 :: rest, h => by
    have hb1 : b1 < 256 := h b1 (by simp)
    have hb2 : b2 < 256 := h b2 (by simp)
    have hb3 : b3 < 256 := h b3 (by simp)
    have ih := b64decode_b64encode rest (fun b hb => h b (by simp [hb]))
    simp only [b64encode, b64decode]
    rw [if_neg (by simp [sextetChar_ne_pad])]
    rw [if_neg (by simp [sextetChar_ne_pad])]
    rw [charSextet_sextetChar _ (by omega), charSextet_sextetChar _ (by omega),
      charSextet_sextetChar _ (by omega), charSextet_sextetChar _ (by omega)]
    simp [ih]
    refine ⟨by omega, by omega, by omega⟩

theorem b64encode_length_mod4 : ∀ bs : List Nat, (b64encode bs).length % 4 = 0
  | [] => rfl
  | [_] => by simp [b64encode]
  | [_, _] => by simp [b64encode]
  | _ :: _ :: _ :: rest => by
    have ih := b64encode_length_mod4 rest
    simp only [b64encode, List.length_cons]
    omega

theorem b64encode_not_space : ∀ bs : List Nat, ∀ c ∈ b64encode bs, pySpace c = false
  | [] => by intro c hc; simp [b64encode] at hc
  | [b1] => by
    intro c hc
    simp only [b64encode, List.mem_cons, List.not_mem_nil, or_false] at hc
    rcases hc with rfl | rfl | rfl | rfl
    · exact pySpace_sextetChar _
    · exact pySpace_sextetChar _
    · rfl
    · rfl
  | [b1, b2] => by
    intro c hc
    simp only [b64encode, List.mem_cons, List.not_mem_nil, or_false] at hc
    rcases hc with rfl | rfl | rfl | rfl
    · exact pySpace_sextetChar _
    · exact pySpace_sextetChar _
    · exact pySpace_sextetChar _
    · rfl
  | b1 :: b2 :: b3 :: rest => by
    intro c hc
    simp only [b64encode, List.mem_cons] at hc
    rcases hc with rfl | rfl | rfl | rfl | hmem
    · exact pySpace_sextetChar _
    · exact pySpace_sextetChar _
    · exact pySpace_sextetChar _
    · exact pySpace_sextetChar _
    · exact b64encode_not_space rest c hmem

theorem dropWhile_all_false {p : Char → Bool} {l : List Char}
    (h : ∀ c ∈ l, p c = false) : l.dropWhile p = l := by
  cases l with
  | nil => rfl
  | cons a t =>
    rw [List.dropWhile_cons, h a (by simp)]
    simp

theorem pyStrip_id {l : List Char} (h : ∀ c ∈ l, pySpace c = false) : pyStrip l = l := by
  have h2 : ∀ c ∈ l.reverse, pySpace c = false := fun c hc => h c (List.mem_reverse.mp hc)
  unfold pyStrip
  rw [dropWhile_all_false h, dropWhile_all_false h2, List.reverse_reverse]

theorem beRead4_be32 (n : Nat) (h : n < 4294967296) : beRead4 (be32 n) = n := by
  simp only [beRead4, be32, List.foldl]
  omega

end VlessLinker

namespace VlessLinker

/-! ### Padding structure of the encoder, for the padding-insensitivity
claim: the encoding is an unpadded body followed by 0, 1 or 2 `=`. -/

/-- Number of `=` padding characters a base64 encoding of `n` bytes
carries. -/
def b64padCount (n : Nat) : Nat :=
  if n % 3 = 0 then 0 else if n % 3 = 1 then 2 else 1

/-- The encoding without its padding characters. -/
def b64body : List Nat → List Char
  | b1 :: b2 :: b3 :: rest =>
    sextetChar (b1 / 4) :: sextetChar ((b1 % 4) * 16 + b2 / 16)
      :: sextetChar ((b2 % 16) * 4 + b3 / 64) :: sextetChar (b3 % 64) :: b64body rest
  | [b1, b2] =>
    [sextetChar (b1 / 4), sextetChar ((b1 % 4) * 16 + b2 / 16), sextetChar ((b2 % 16) * 4)]
  | [b1] => [sextetChar (b1 / 4), sextetChar ((b1 % 4) * 16)]
  | [] => []

theorem b64padCount_add3 (n : Nat) : b64padCount (n + 3) = b64padCount n := by
  unfold b64padCount
  have h : (n + 3) % 3 = n % 3 := by omega
  rw [h]

theorem b64encode_eq_body_pad : ∀ bs : List Nat,
    b64encode bs = b64body bs ++ List.replicate (b64padCount bs.length) '='
  | [] => rfl
  | [_] => rfl
  | [_, _] => rfl
  | b1 :: b2 :: b3 :: rest => by
    have ih := b64encode_eq_body_pad rest
    simp only [b64encode, b64body, List.length_cons]
    have h3 : rest.length + 1 + 1 + 1 = rest.length + 3 := by omega
    rw [h3, b64padCount_add3, ih]
    simp

theorem b64padCount_le_two (n : Nat) : b64padCount n ≤ 2 := by
  unfold b64padCount
  split <;> [omega; split <;> omega]

end VlessLinker

namespace VlessLinker

/-! ### Shared lemmas about the URI mapper -/

/-- Reading back the configuration `from_vless_url` builds recovers
exactly the components that went in (all key lookups are definitional). -/
theorem extract_mkVlessConfig (uuid address : Option String) (port : Nat)
    (network security publicKey serverName fingerprint shortId flow spiderx : String) :
    extractVless (mkVlessConfig uuid address port network security publicKey serverName
        fingerprint shortId flow spiderx) =
      .ok ⟨optStr uuid, optStr address, .num port, .str flow, .str network, .str security,
           .str serverName, .str fingerprint, .str publicKey, .str shortId, .str spiderx⟩ := rfl

/-- The eight optional query parameters in their fixed emission order
(spec wording), paired with the field each one is read from. -/
def orderedQueryFields (f : VlessFields) : List (String × Json) :=
  [("flow", f.flow), ("security", f.security), ("sni", f.serverName), ("fp", f.fingerprint),
   ("pbk", f.publicKey), ("sid", f.shortId), ("spx", f.spiderX), ("type", f.network)]

/-- Spec-side rendering of the query tail: walk the ordered field list
and emit `&key=value` for every truthy value. -/
def specQuery (f : VlessFields) : String :=
  String.join ((orderedQueryFields f).map fun kv =>
    if truthy kv.2 then "&" ++ kv.1 ++ "=" ++ pyStr kv.2 else "")

/-- The source's sequential conditional appends produce exactly the
spec-side ordered rendering. -/
theorem buildVlessUrl_eq_spec (f : VlessFields) :
    buildVlessUrl f =
      "vless://" ++ pyStr f.uuid ++ "@" ++ pyStr f.address ++ ":" ++ pyStr f.port
        ++ "?encryption=none" ++ specQuery f := by
  simp only [specQuery, orderedQueryFields, List.map, String.join, List.foldl, buildVlessUrl]
  simp only [← String.append_assoc, String.empty_append, String.append_empty]
  rfl

/-- Inversion for `from_vless_url`: it succeeds exactly when the netloc
passes the bracket validation and the port parses, and then returns the
configuration built from the parsed components. -/
theorem from_vless_url_ok_iff (url : String) (cfg : Json) :
    from_vless_url url = .ok cfg ↔
      netlocInvalidBrackets (urlsplitLite url.data).netloc = false ∧
      ∃ port : Nat,
        pyPort (hostinfo (urlsplitLite url.data).netloc).2 = .ok (some port) ∧
        cfg = mkVlessConfig (pyUsername (urlsplitLite url.data).netloc)
          (pyHostname (urlsplitLite url.data).netloc) port
          (qsFirst (parseQsl (urlsplitLite url.data).query) "type" "tcp")
          (qsFirst (parseQsl (urlsplitLite url.data).query) "security" "none")
          (qsFirst (parseQsl (urlsplitLite url.data).query) "pbk" "")
          (qsFirst (parseQsl (urlsplitLite url.data).query) "sni" "")
          (qsFirst (parseQsl (urlsplitLite url.data).query) "fp" "")
          (qsFirst (parseQsl (urlsplitLite url.data).query) "sid" "")
          (qsFirst (parseQsl (urlsplitLite url.data).query) "flow" "")
          (qsFirst (parseQsl (urlsplitLite url.data).query) "spx" "") := by
  simp only [from_vless_url, pyUrlsplit]
  cases hb : netlocInvalidBrackets (urlsplitLite url.data).netloc with
  | true => simp
  | false =>
    rw [if_neg (show ¬(false = true) by simp)]
    simp only [eq_self_iff_true, true_and]
    show (match pyPort (hostinfo (urlsplitLite url.data).netloc).2 with
      | Except.error e => Except.error e
      | Except.ok none =>
        Except.error (PyErr.typeError
          "int() argument must be a string, a bytes-like object or a real number, not 'NoneType'")
      | Except.ok (some port) =>
        Except.ok (mkVlessConfig (pyUsername (urlsplitLite url.data).netloc)
          (pyHostname (urlsplitLite url.data).netloc) port
          (qsFirst (parseQsl (urlsplitLite url.data).query) "type" "tcp")
          (qsFirst (parseQsl (urlsplitLite url.data).query) "security" "none")
          (qsFirst (parseQsl (urlsplitLite url.data).query) "pbk" "")
          (qsFirst (parseQsl (urlsplitLite url.data).query) "sni" "")
          (qsFirst (parseQsl (urlsplitLite url.data).query) "fp" "")
          (qsFirst (parseQsl (urlsplitLite url.data).query) "sid" "")
          (qsFirst (parseQsl (urlsplitLite url.data).query) "flow" "")
          (qsFirst (parseQsl (urlsplitLite url.data).query) "spx" ""))) = .ok cfg ↔ _
    cases hp : pyPort (hostinfo (urlsplitLite url.data).netloc).2 with
    | error e => simp
    | ok o =>
      cases o with
      | none => simp
      | some port =>
        constructor
        · intro h
          exact ⟨port, rfl, (Except.ok.injEq _ _).mp h.symm⟩
        · rintro ⟨port', hp', rfl⟩
          obtain rfl : port' = port := by
            have h1 := (Except.ok.injEq _ _).mp hp'
            exact ((Option.some.injEq _ _).mp h1).symm
          rfl

/-! ### Shared lemmas about the vpn codec -/

theorem be32_lt (n : Nat) : ∀ b ∈ be32 n, b < 256 := by
  simp only [be32, List.mem_cons, List.not_mem_nil, or_false]
  rintro b (rfl | rfl | rfl | rfl) <;> omega

/-- Decoding a well-formed token `vpn://` + multiple-of-four payload with
no surrounding whitespace: the strip and the padding step are both
no-ops. -/
theorem decode_vpn_encoded (decomp : List Nat → Option (List Nat))
    (loads : String → Option Json) (payload : List Char)
    (hns : ∀ c ∈ payload, pySpace c = false) (hmod : payload.length % 4 = 0) :
    decode_vpn_url decomp loads ("vpn://" ++ String.mk payload) =
      match b64decode payload with
      | none => .error (.valueError "Base64 decode error")
      | some raw => decodeRaw decomp loads raw := by
  simp only [decode_vpn_url]
  rw [if_neg (show ¬(("vpn://" ++ String.mk payload).data.take 6 ≠ "vpn://".data) from
    fun h => h rfl)]
  simp [pyStrip_id hns, hmod]

/-- Re-padding a base64 payload stripped of `k ≤ padCount` trailing `=`
characters reconstructs the fully padded encoding. -/
theorem repad_take (bs : List Nat) (k : Nat) (hk : k ≤ b64padCount bs.length) :
    (b64encode bs).take ((b64encode bs).length - k) ++
      List.replicate
        (if ((b64encode bs).take ((b64encode bs).length - k)).length % 4 = 0 then 0
         else 4 - ((b64encode bs).take ((b64encode bs).length - k)).length % 4) '=' =
      b64encode bs := by
  have hp2 := b64padCount_le_two bs.length
  have hmod : (b64encode bs).length % 4 = 0 := b64encode_length_mod4 bs
  have hlenE : (b64encode bs).length = (b64body bs).length + b64padCount bs.length := by
    rw [b64encode_eq_body_pad bs]; simp
  rw [hlenE] at hmod
  rw [b64encode_eq_body_pad bs]
  have hlen2 : (b64body bs ++ List.replicate (b64padCount bs.length) '=').length
      = (b64body bs).length + b64padCount bs.length := by simp
  rw [hlen2,
    show (b64body bs).length + b64padCount bs.length - k
      = (b64body bs).length + (b64padCount bs.length - k) by omega,
    List.take_append, List.take_replicate, Nat.min_eq_left (by omega)]
  have hlen3 : (b64body bs ++ List.replicate (b64padCount bs.length - k) '=').length
      = (b64body bs).length + (b64padCount bs.length - k) := by simp
  rw [hlen3]
  have hrep : (if ((b64body bs).length + (b64padCount bs.length - k)) % 4 = 0 then 0
      else 4 - ((b64body bs).length + (b64padCount bs.length - k)) % 4) = k := by
    split <;> omega
  rw [hrep, List.append_assoc, ← List.replicate_add,
    show b64padCount bs.length - k + k = b64padCount bs.length by omega]

/-! ### Concrete instances used by counterexamples and witnesses -/

/-- Identity "decompression", a legitimate instantiation of the abstract
inverse contract `decompress (compress bs) = some bs`. -/
def decompId : List Nat → Option (List Nat) := fun l => some l

/-- Always-failing decompression (models `zlib.error` on every input). -/
def decompNone : List Nat → Option (List Nat) := fun _ => none

/-- UTF-8 bytes of an ASCII string. -/
def asciiBytes (s : String) : List Nat := s.data.map Char.toNat

/-- A wrapper-shaped value whose `containers[0].xray.last_config` holds
the JSON text `"0"`. -/
def wrapDemo : Json :=
  .obj [("containers", .arr [.obj [("xray", .obj [("last_config", .str "0")])]])]

/-- The canonical JSON serialization of `wrapDemo`. -/
def wrapDemoText : String :=
  "\x7b\"containers\": [\x7b\"xray\": \x7b\"last_config\": \"0\"\x7d\x7d]\x7d"

/-- A concrete JSON-parser instance for the `loadsS` parameter, defined
on the few texts the witnesses and counterexamples feed it. -/
def loadsDemo : String → Option Json := fun s =>
  if s = "[1]" then some (.arr [.num 1])
  else if s = "0" then some (.num 0)
  else if s = wrapDemoText then some wrapDemo
  else none

/-- A wrapper-shaped value whose `last_config` is not a string. -/
def wrapBad : Json :=
  .obj [("containers", .arr [.obj [("xray", .obj [("last_config", .num 42)])]])]

/-- The configuration `from_vless_url "vless://u@HOST:443"` produces. -/
def cfgHostDemo : Json :=
  mkVlessConfig (some "u") (some "host") 443 "tcp" "none" "" "" "" "" "" ""

/-- The fields `to_vless_url` reads back out of `cfgHostDemo`. -/
def fldDemo : VlessFields :=
  ⟨.str "u", .str "host", .num 443, .str "", .str "tcp", .str "none",
   .str "", .str "", .str "", .str "", .str ""⟩

end VlessLinker

namespace VlessLinker

/-! ### Claim C1 — URI round trip -/

/-- C1 counterexample: the URI `vless://u@HOST:443` is accepted, but the
URI produced by `to_vless_url` carries host `host` while the original
carried `HOST`, so the address does not match the original URI (the
hostname is lowercased during parsing). -/
theorem c1_roundtrip_counterexample :
    from_vless_url "vless://u@HOST:443" = .ok cfgHostDemo ∧
    to_vless_url cfgHostDemo (some "n") =
      .ok "vless://u@host:443?encryption=none&security=none&type=tcp#n" ∧
    (hostinfo (urlsplitLite "vless://u@HOST:443".data).netloc).1 = "HOST".data ∧
    (hostinfo (urlsplitLite
        "vless://u@host:443?encryption=none&security=none&type=tcp#n".data).netloc).1 =
      "host".data ∧
    "HOST".data ≠ "host".data :=
  ⟨rfl, rfl, rfl, rfl, by decide⟩

/-- C1 (amended): for every URI accepted by `from_vless_url`, applying
`to_vless_url` yields exactly the URI rebuilt from the original's parsed
components — uuid and port unchanged, address equal to the lowercased
host, and, in the fixed order flow, security, sni, fp, pbk, sid, spx,
type, each query parameter's first decoded value emitted whenever
non-empty (the defaults `security=none` and `type=tcp` fill absent
parameters), then `#` and the prompt-derived display name. -/
theorem c1_roundtrip_amended (url : String) (cfg : Json) (resp : Option String)
    (h : from_vless_url url = .ok cfg) :
    ∃ port : Nat,
      pyPort (hostinfo (urlsplitLite url.data).netloc).2 = .ok (some port) ∧
      to_vless_url cfg resp = .ok (
        let parts := urlsplitLite url.data
        let params := parseQsl parts.query
        let uuid := optStr (pyUsername parts.netloc)
        let addr := optStr (pyHostname parts.netloc)
        let flow := qsFirst params "flow" ""
        let security := qsFirst params "security" "none"
        let sni := qsFirst params "sni" ""
        let fp := qsFirst params "fp" ""
        let pbk := qsFirst params "pbk" ""
        let sid := qsFirst params "sid" ""
        let spx := qsFirst params "spx" ""
        let ntype := qsFirst params "type" "tcp"
        "vless://" ++ pyStr uuid ++ "@" ++ pyStr addr ++ ":"
          ++ toString port ++ "?encryption=none"
          ++ (if flow != "" then "&flow=" ++ flow else "")
          ++ (if security != "" then "&security=" ++ security else "")
          ++ (if sni != "" then "&sni=" ++ sni else "")
          ++ (if fp != "" then "&fp=" ++ fp else "")
          ++ (if pbk != "" then "&pbk=" ++ pbk else "")
          ++ (if sid != "" then "&sid=" ++ sid else "")
          ++ (if spx != "" then "&spx=" ++ spx else "")
          ++ (if ntype != "" then "&type=" ++ ntype else "")
          ++ "#" ++ pyStr (get_vless_name addr resp)) := by
  rw [from_vless_url_ok_iff] at h
  obtain ⟨hb, port, hp, rfl⟩ := h
  refine ⟨port, hp, ?_⟩
  simp only [to_vless_url, extract_mkVlessConfig]
  rfl

set_option maxHeartbeats 2000000 in
/-- C1 witness: the amended round trip applied to a concrete accepted
URI, with both sides evaluated. -/
theorem c1_roundtrip_amended_witness :
    from_vless_url "vless://u@HOST:443?flow=xtls-rprx-vision&sni=a.b" =
      .ok (mkVlessConfig (some "u") (some "host") 443 "tcp" "none" "" "a.b" "" ""
        "xtls-rprx-vision" "") ∧
    ∃ port : Nat,
      pyPort (hostinfo (urlsplitLite
        "vless://u@HOST:443?flow=xtls-rprx-vision&sni=a.b".data).netloc).2 = .ok (some port) ∧
      to_vless_url (mkVlessConfig (some "u") (some "host") 443 "tcp" "none" "" "a.b" "" ""
          "xtls-rprx-vision" "") (some "nm") =
        .ok ("vless://u@host:443?encryption=none&flow=xtls-rprx-vision&security=none"
          ++ "&sni=a.b&type=tcp#nm") := by
  refine ⟨rfl, ?_⟩
  obtain ⟨port, hp, heq⟩ := c1_roundtrip_amended
    "vless://u@HOST:443?flow=xtls-rprx-vision&sni=a.b"
    (mkVlessConfig (some "u") (some "host") 443 "tcp" "none" "" "a.b" "" "" "xtls-rprx-vision" "")
    (some "nm") rfl
  have h0 : pyPort (hostinfo (urlsplitLite
      "vless://u@HOST:443?flow=xtls-rprx-vision&sni=a.b".data).netloc).2 =
      .ok (some 443) := rfl
  rw [h0] at hp
  obtain rfl : port = 443 :=
    ((Option.some.injEq _ _).mp ((Except.ok.injEq _ _).mp hp)).symm
  refine ⟨443, h0, ?_⟩
  rw [heq]
  rfl

end VlessLinker

namespace VlessLinker

/-! ### Claim C4 — error behavior of `to_vless_url` -/

/-- C4 counterexample: on a configuration with no `outbounds`, the
function does not return an error value to the caller — it reaches the
`sys.exit` call of line 182, terminating the process with a message. -/
theorem c4_error_exit_counterexample :
    to_vless_url (.obj []) none = .sysExit "Error generating VLESS URL: 'outbounds'" := rfl

/-- C4 (amended): when any required path is absent or malformed, every
exception raised during extraction reaches the `except` handler, which
terminates the process via `sys.exit` with the message
`Error generating VLESS URL: ` followed by the exception text — no error
value is returned to the caller; in particular a missing `outbounds` key
exits with `Error generating VLESS URL: 'outbounds'`. -/
theorem c4_error_exit_amended :
    (∀ (data : Json) (resp : Option String) (e : PyErr), extractVless data = .error e →
      to_vless_url data resp = .sysExit ("Error generating VLESS URL: " ++ pyErrStr e)) ∧
    (∀ (kvs : List (String × Json)) (resp : Option String),
      jlookup kvs "outbounds" = none →
      to_vless_url (.obj kvs) resp = .sysExit "Error generating VLESS URL: 'outbounds'") := by
  constructor
  · intro data resp e h
    simp [to_vless_url, h]
  · intro kvs resp h
    have h1 : pyIndexStr (.obj kvs) "outbounds" = .error (.keyError "'outbounds'") := by
      simp [pyIndexStr, h]
    simp only [to_vless_url, extractVless, h1]
    rfl

/-- C4 witness: the amended behavior at a concrete configuration. -/
theorem c4_error_exit_amended_witness :
    jlookup ([("inbounds", Json.arr [])]) "outbounds" = none ∧
    to_vless_url (.obj [("inbounds", Json.arr [])]) (some "x") =
      .sysExit "Error generating VLESS URL: 'outbounds'" :=
  ⟨rfl, c4_error_exit_amended.2 [("inbounds", Json.arr [])] (some "x") rfl⟩

/-! ### Claim C5 — port parsing -/

/-- C5 counterexample: `99999` is numeric, yet the URI is rejected
with `Port out of range 0-65535` instead of producing a configuration
carrying the port. -/
theorem c5_port_parse_counterexample :
    ("99999".data.all isAsciiDigit) = true ∧
    from_vless_url "vless://u@h:99999" = .error (.valueError "Port out of range 0-65535") :=
  ⟨by decide, rfl⟩

/-- C5 (amended): after `urlparse`'s removal of tab/newline bytes, a
netloc with mismatched brackets fails with `Invalid IPv6 URL`; otherwise
an absent port fails (the `TypeError` of `int(None)`), a non-digit port
fails with `Port could not be cast to integer value...`, and a numeric
port is carried into the configuration as an integer provided it is at
most 65535 (larger numeric ports fail with `Port out of range 0-65535`).
The port text is read from the cleaned URL, so digits separated by a tab
still parse. -/
theorem c5_port_parse_amended :
    (∀ url : String, netlocInvalidBrackets (urlsplitLite url.data).netloc = true →
      from_vless_url url = .error (.valueError "Invalid IPv6 URL")) ∧
    (∀ url : String, netlocInvalidBrackets (urlsplitLite url.data).netloc = false →
      (hostinfo (urlsplitLite url.data).netloc).2 = none →
      from_vless_url url = .error (.typeError
        "int() argument must be a string, a bytes-like object or a real number, not 'NoneType'")) ∧
    (∀ url : String, ∀ ps : List Char,
      netlocInvalidBrackets (urlsplitLite url.data).netloc = false →
      (hostinfo (urlsplitLite url.data).netloc).2 = some ps →
      (!ps.isEmpty && ps.all isAsciiDigit) = false →
      from_vless_url url = .error (.valueError
        ("Port could not be cast to integer value as '" ++ String.mk ps ++ "'"))) ∧
    (∀ url : String, ∀ ps : List Char,
      netlocInvalidBrackets (urlsplitLite url.data).netloc = false →
      (hostinfo (urlsplitLite url.data).netloc).2 = some ps →
      (!ps.isEmpty && ps.all isAsciiDigit) = true → digitsToNat ps ≤ 65535 →
      ∃ cfg f, from_vless_url url = .ok cfg ∧ extractVless cfg = .ok f ∧
        f.port = .num (digitsToNat ps)) := by
  refine ⟨?_, ?_, ?_, ?_⟩
  · intro url hb
    have hsplit : pyUrlsplit url.data = .error (.valueError "Invalid IPv6 URL") := by
      simp only [pyUrlsplit]
      rw [if_pos hb]
    simp only [from_vless_url, hsplit]
  · intro url hb h
    have hsplit : pyUrlsplit url.data = .ok (urlsplitLite url.data) := by
      simp only [pyUrlsplit]
      rw [if_neg (by simp [hb])]
    simp only [from_vless_url, hsplit]
    rw [h]
    rfl
  · intro url ps hb h hc
    have hsplit : pyUrlsplit url.data = .ok (urlsplitLite url.data) := by
      simp only [pyUrlsplit]
      rw [if_neg (by simp [hb])]
    simp only [from_vless_url, hsplit]
    rw [h]
    simp only [pyPort, hc]
    rfl
  · intro url ps hb h hc hle
    have hsplit : pyUrlsplit url.data = .ok (urlsplitLite url.data) := by
      simp only [pyUrlsplit]
      rw [if_neg (by simp [hb])]
    have hp : pyPort (hostinfo (urlsplitLite url.data).netloc).2 =
        .ok (some (digitsToNat ps)) := by
      rw [h]
      simp only [pyPort, hc, if_true]
      rw [if_pos hle]
    refine ⟨mkVlessConfig (pyUsername (urlsplitLite url.data).netloc)
      (pyHostname (urlsplitLite url.data).netloc) (digitsToNat ps)
      (qsFirst (parseQsl (urlsplitLite url.data).query) "type" "tcp")
      (qsFirst (parseQsl (urlsplitLite url.data).query) "security" "none")
      (qsFirst (parseQsl (urlsplitLite url.data).query) "pbk" "")
      (qsFirst (parseQsl (urlsplitLite url.data).query) "sni" "")
      (qsFirst (parseQsl (urlsplitLite url.data).query) "fp" "")
      (qsFirst (parseQsl (urlsplitLite url.data).query) "sid" "")
      (qsFirst (parseQsl (urlsplitLite url.data).query) "flow" "")
      (qsFirst (parseQsl (urlsplitLite url.data).query) "spx" ""), _, ?_,
      extract_mkVlessConfig _ _ _ _ _ _ _ _ _ _ _, rfl⟩
    simp only [from_vless_url, hsplit, hp]

/-- C5 witness: the four amended branches at concrete URIs — a
mismatched-bracket netloc, a missing port, a non-digit port, a numeric
port split by a tab (removed by urlparse, so it still parses as 443),
and an in-range numeric port carried through. -/
theorem c5_port_parse_amended_witness :
    (netlocInvalidBrackets (urlsplitLite "vless://u@h]x:443".data).netloc = true ∧
      from_vless_url "vless://u@h]x:443" = .error (.valueError "Invalid IPv6 URL")) ∧
    ((hostinfo (urlsplitLite "vless://u@h".data).netloc).2 = none ∧
      from_vless_url "vless://u@h" = .error (.typeError
        "int() argument must be a string, a bytes-like object or a real number, not 'NoneType'")) ∧
    ((hostinfo (urlsplitLite "vless://u@h:12ab".data).netloc).2 = some "12ab".data ∧
      from_vless_url "vless://u@h:12ab" = .error (.valueError
        "Port could not be cast to integer value as '12ab'")) ∧
    ((hostinfo (urlsplitLite "vless://u@h:4\t43".data).netloc).2 = some "443".data ∧
      ∃ cfg f, from_vless_url "vless://u@h:4\t43" = .ok cfg ∧ extractVless cfg = .ok f ∧
        f.port = .num (digitsToNat "443".data)) ∧
    ((hostinfo (urlsplitLite "vless://u@h:8443".data).netloc).2 = some "8443".data ∧
      ∃ cfg f, from_vless_url "vless://u@h:8443" = .ok cfg ∧ extractVless cfg = .ok f ∧
        f.port = .num (digitsToNat "8443".data)) :=
  ⟨⟨rfl, c5_port_parse_amended.1 "vless://u@h]x:443" rfl⟩,
   ⟨rfl, c5_port_parse_amended.2.1 "vless://u@h" rfl rfl⟩,
   ⟨rfl, c5_port_parse_amended.2.2.1 "vless://u@h:12ab" "12ab".data rfl rfl (by decide)⟩,
   ⟨rfl, c5_port_parse_amended.2.2.2 "vless://u@h:4\t43" "443".data rfl rfl
     (by decide) (by decide)⟩,
   ⟨rfl, c5_port_parse_amended.2.2.2 "vless://u@h:8443" "8443".data rfl rfl
     (by decide) (by decide)⟩⟩

end VlessLinker

namespace VlessLinker

/-! ### Claim C6 — display name and determinism -/

/-- C6 counterexample: `to_vless_url` does not take the display name as
a caller-supplied parameter — it prompts inside the conversion, so two
runs on the same configuration with different console responses produce
different outputs. -/
theorem c6_prompted_name_counterexample :
    to_vless_url cfgHostDemo (some "a") ≠ to_vless_url cfgHostDemo (some "b") := by decide

/-- C6 (amended): `to_vless_url` is a deterministic function of the
configuration and the console response together: on every accepted
configuration the output is the built URL followed by `#` and the
stripped response when that is non-empty, the address value otherwise
(also on `KeyboardInterrupt`, modelled as `none`). -/
theorem c6_prompted_name_amended (data : Json) (f : VlessFields)
    (h : extractVless data = .ok f) :
    (∀ r : String, to_vless_url data (some r) =
      .ok (buildVlessUrl f ++ "#" ++
        (if String.mk (pyStrip r.data) = "" then pyStr f.address
         else String.mk (pyStrip r.data)))) ∧
    to_vless_url data none = .ok (buildVlessUrl f ++ "#" ++ pyStr f.address) := by
  constructor
  · intro r
    simp only [to_vless_url, h, get_vless_name]
    split <;> rfl
  · simp [to_vless_url, h, get_vless_name]

/-- C6 witness: the amended name behavior at a concrete configuration
and a response that needs stripping. -/
theorem c6_prompted_name_amended_witness :
    extractVless cfgHostDemo = .ok fldDemo ∧
    to_vless_url cfgHostDemo (some " nm ") =
      .ok (buildVlessUrl fldDemo ++ "#" ++
        (if String.mk (pyStrip " nm ".data) = "" then pyStr fldDemo.address
         else String.mk (pyStrip " nm ".data))) :=
  ⟨rfl, (c6_prompted_name_amended cfgHostDemo fldDemo rfl).1 " nm "⟩

/-! ### Claim C7 — output shape and field order -/

/-- C7 (confirmed): on every accepted configuration the produced URI is
`vless://uuid@address:port?encryption=none` followed by the query
parameters in the fixed order flow, security, sni, fp, pbk, sid, spx,
type — each emitted exactly when its field value is truthy (for the
string fields: non-empty) — then `#` and the display name. -/
theorem c7_query_order (data : Json) (resp : Option String) (f : VlessFields)
    (h : extractVless data = .ok f) :
    to_vless_url data resp =
      .ok ("vless://" ++ pyStr f.uuid ++ "@" ++ pyStr f.address ++ ":" ++ pyStr f.port
        ++ "?encryption=none" ++ specQuery f ++ "#" ++ pyStr (get_vless_name f.address resp)) := by
  simp only [to_vless_url, h]
  rw [buildVlessUrl_eq_spec]

/-- C7 witness: the fixed-order rendering at a concrete configuration,
with the query tail evaluated. -/
theorem c7_query_order_witness :
    extractVless cfgHostDemo = .ok fldDemo ∧
    specQuery fldDemo = "&security=none&type=tcp" ∧
    to_vless_url cfgHostDemo none =
      .ok ("vless://" ++ pyStr fldDemo.uuid ++ "@" ++ pyStr fldDemo.address ++ ":"
        ++ pyStr fldDemo.port ++ "?encryption=none" ++ specQuery fldDemo ++ "#"
        ++ pyStr (get_vless_name fldDemo.address none)) :=
  ⟨rfl, rfl, c7_query_order cfgHostDemo none fldDemo rfl⟩

/-! ### Claim C10 — hostname lowercasing -/

/-- C10 (confirmed): the address stored by `from_vless_url` is the
lowercased form of the URI's host component (and `null` when the host is
empty or absent). -/
theorem c10_hostname_lowercased (url : String) (cfg : Json)
    (h : from_vless_url url = .ok cfg) :
    ∃ f, extractVless cfg = .ok f ∧
      f.address = (match (hostinfo (urlsplitLite url.data).netloc).1 with
                   | [] => Json.null
                   | hraw => Json.str (String.mk (hraw.map Char.toLower))) := by
  rw [from_vless_url_ok_iff] at h
  obtain ⟨hb, port, hp, rfl⟩ := h
  refine ⟨_, rfl, ?_⟩
  show optStr (pyHostname (urlsplitLite url.data).netloc) = _
  unfold pyHostname lowerChars
  cases (hostinfo (urlsplitLite url.data).netloc).1 <;> rfl

/-- C10 witness: a mixed-case host is stored lowercased. -/
theorem c10_hostname_lowercased_witness :
    from_vless_url "vless://u@ExAmple.COM:8443" =
      .ok (mkVlessConfig (some "u") (some "example.com") 8443 "tcp" "none" "" "" "" "" "" "") ∧
    (hostinfo (urlsplitLite "vless://u@ExAmple.COM:8443".data).netloc).1 = "ExAmple.COM".data ∧
    ∃ f, extractVless (mkVlessConfig (some "u") (some "example.com") 8443 "tcp" "none"
        "" "" "" "" "" "") = .ok f ∧
      f.address = (match (hostinfo (urlsplitLite "vless://u@ExAmple.COM:8443".data).netloc).1 with
                   | [] => Json.null
                   | hraw => Json.str (String.mk (hraw.map Char.toLower))) :=
  ⟨rfl, rfl, c10_hostname_lowercased "vless://u@ExAmple.COM:8443" _ rfl⟩

end VlessLinker

namespace VlessLinker

/-! ### Claim C8 — unwrap behavior -/

/-- C8 counterexample: a value whose `containers[0].xray.last_config`
exists but is not a string lacks the path-with-a-JSON-encoded-string
pattern, yet `unwrap` does not return it unchanged — the value goes to
`json.loads`, which raises a `TypeError`. -/
theorem c8_unwrap_identity_counterexample :
    (∀ s, wrapPath wrapBad ≠ some (.str s)) ∧
    unwrap loadsDemo wrapBad =
      .error (.typeError "the JSON object must be str, bytes or bytearray, not int") ∧
    ∀ j, unwrap loadsDemo wrapBad ≠ .ok j := by
  refine ⟨?_, rfl, ?_⟩
  · intro s h
    rw [show wrapPath wrapBad = some (.num 42) from rfl] at h
    simp at h
  · intro j h
    rw [show unwrap loadsDemo wrapBad =
      .error (.typeError "the JSON object must be str, bytes or bytearray, not int")
      from rfl] at h
    exact Except.noConfusion h

/-- C8 (amended): `unwrap` is the identity (and never fails) exactly on
values where the `containers[0].xray.last_config` key chain is absent;
when the chain exists, a string value is parsed as JSON (replacing the
root, with parse failure propagating) and a non-string value raises a
`TypeError` instead of being returned unchanged. -/
theorem c8_unwrap_identity_amended (loads : String → Option Json) (j : Json) :
    (wrapPath j = none → unwrap loads j = .ok j) ∧
    (∀ s inner, wrapPath j = some (.str s) → loads s = some inner →
      unwrap loads j = .ok inner) ∧
    (∀ v, wrapPath j = some v → (∀ s, v ≠ .str s) →
      ∃ m, unwrap loads j = .error (.typeError m)) := by
  refine ⟨fun h => by simp [unwrap, h], fun s inner h hl => by simp [unwrap, h, hl], ?_⟩
  intro v h hv
  cases v with
  | str s => exact absurd rfl (hv s)
  | null =>
    refine ⟨"the JSON object must be str, bytes or bytearray, not " ++ pyTypeName Json.null, ?_⟩
    simp [unwrap, h]
  | bool b =>
    refine ⟨"the JSON object must be str, bytes or bytearray, not "
      ++ pyTypeName (Json.bool b), ?_⟩
    simp [unwrap, h]
  | num n =>
    refine ⟨"the JSON object must be str, bytes or bytearray, not "
      ++ pyTypeName (Json.num n), ?_⟩
    simp [unwrap, h]
  | arr l =>
    refine ⟨"the JSON object must be str, bytes or bytearray, not "
      ++ pyTypeName (Json.arr l), ?_⟩
    simp [unwrap, h]
  | obj l =>
    refine ⟨"the JSON object must be str, bytes or bytearray, not "
      ++ pyTypeName (Json.obj l), ?_⟩
    simp [unwrap, h]

/-- C8 witness: identity on a concrete value without the chain. -/
theorem c8_unwrap_identity_amended_witness :
    wrapPath (Json.obj [("inbounds", Json.arr [])]) = none ∧
    unwrap loadsDemo (Json.obj [("inbounds", Json.arr [])]) =
      .ok (Json.obj [("inbounds", Json.arr [])]) :=
  ⟨rfl, (c8_unwrap_identity_amended loadsDemo (Json.obj [("inbounds", Json.arr [])])).1 rfl⟩

/-! ### Claim C2 — compressed token decoding -/

set_option maxRecDepth 8000 in
/-- C2 counterexample: for a JSON value shaped like the nested-container
wrapper, decoding its own correctly built compressed token does not
return the value — the trailing unwrap step replaces it with the parsed
`last_config` content. -/
theorem c2_compressed_decode_counterexample :
    loadsBytes loadsDemo (asciiBytes wrapDemoText) = some wrapDemo ∧
    decompId (asciiBytes wrapDemoText) = some (asciiBytes wrapDemoText) ∧
    (asciiBytes wrapDemoText).length < 4294967296 ∧
    decode_vpn_url decompId loadsDemo
      ("vpn://" ++ String.mk (b64encode
        (be32 (asciiBytes wrapDemoText).length ++ asciiBytes wrapDemoText))) = .ok (.num 0) ∧
    Json.num 0 ≠ wrapDemo :=
  ⟨rfl, rfl, by decide, rfl, by simp [wrapDemo]⟩

/-- C2 (amended): for every JSON value `j` with no
`containers[0].xray.last_config` chain, every byte serialization `bs` of
`j` below 2^32 bytes, and every deflate stream `cbs` that decompresses
to `bs`, decoding `vpn://` + base64url of the 4-byte big-endian length
of `bs` followed by `cbs` returns exactly `j`.  (For wrapper-shaped
values the unwrap step substitutes the nested configuration instead.) -/
theorem c2_compressed_decode_amended (decomp : List Nat → Option (List Nat))
    (loads : String → Option Json) (j : Json) (bs cbs : List Nat)
    (hbytes : ∀ b ∈ cbs, b < 256)
    (hlen : bs.length < 4294967296)
    (hdec : decomp cbs = some bs)
    (hload : loadsBytes loads bs = some j)
    (hwrap : wrapPath j = none) :
    decode_vpn_url decomp loads
        ("vpn://" ++ String.mk (b64encode (be32 bs.length ++ cbs))) = .ok j := by
  have hb : ∀ b ∈ be32 bs.length ++ cbs, b < 256 := by
    intro b hb
    rcases List.mem_append.mp hb with h | h
    · exact be32_lt _ b h
    · exact hbytes b h
  rw [decode_vpn_encoded decomp loads _ (b64encode_not_space _) (b64encode_length_mod4 _)]
  rw [b64decode_b64encode _ hb]
  show decodeRaw decomp loads (be32 bs.length ++ cbs) = .ok j
  have hlen4 : 4 ≤ (be32 bs.length ++ cbs).length := by
    simp [be32]
  have hdrop : (be32 bs.length ++ cbs).drop 4 = cbs := by
    simp [be32]
  have htake : (be32 bs.length ++ cbs).take 4 = be32 bs.length := by
    simp [be32]
  simp only [decodeRaw, if_pos hlen4, hdrop, htake, hdec, beRead4_be32 _ hlen, hload]
  simp [unwrap, hwrap]

/-- C2 witness: the amended decode with identity decompression on the
serialization of `[1]`. -/
theorem c2_compressed_decode_amended_witness :
    (∀ b ∈ asciiBytes "[1]", b < 256) ∧
    (asciiBytes "[1]").length < 4294967296 ∧
    decompId (asciiBytes "[1]") = some (asciiBytes "[1]") ∧
    loadsBytes loadsDemo (asciiBytes "[1]") = some (.arr [.num 1]) ∧
    wrapPath (Json.arr [.num 1]) = none ∧
    decode_vpn_url decompId loadsDemo
      ("vpn://" ++ String.mk (b64encode
        (be32 (asciiBytes "[1]").length ++ asciiBytes "[1]"))) = .ok (.arr [.num 1]) :=
  ⟨by decide, by decide, rfl, rfl, rfl,
   c2_compressed_decode_amended decompId loadsDemo (.arr [.num 1]) (asciiBytes "[1]")
     (asciiBytes "[1]") (by decide) (by decide) rfl rfl rfl⟩

/-! ### Claim C3 — bare token fallback -/

set_option maxRecDepth 8000 in
/-- C3 counterexample: the bare token of a wrapper-shaped value decodes
through the fallback path but returns the unwrapped inner configuration,
not the value itself. -/
theorem c3_bare_fallback_counterexample :
    loadsBytes loadsDemo (asciiBytes wrapDemoText) = some wrapDemo ∧
    decompNone ((asciiBytes wrapDemoText).drop 4) = none ∧
    decode_vpn_url decompNone loadsDemo
      ("vpn://" ++ String.mk (b64encode (asciiBytes wrapDemoText))) = .ok (.num 0) ∧
    Json.num 0 ≠ wrapDemo :=
  ⟨rfl, rfl, rfl, by simp [wrapDemo]⟩

/-- C3 (amended): for every JSON value `j` with no
`containers[0].xray.last_config` chain and every byte serialization `bs`
of `j`, decoding `vpn://` + base64url of the bare bytes returns exactly
`j` whenever the compressed interpretation fails — the buffer is shorter
than four bytes, decompression of the tail fails, or the decompressed
length differs from the four-byte big-endian prefix. -/
theorem c3_bare_fallback_amended (decomp : List Nat → Option (List Nat))
    (loads : String → Option Json) (j : Json) (bs : List Nat)
    (hbytes : ∀ b ∈ bs, b < 256)
    (hload : loadsBytes loads bs = some j)
    (hfail : bs.length < 4 ∨
      ∀ d, decomp (bs.drop 4) = some d → d.length ≠ beRead4 (bs.take 4))
    (hwrap : wrapPath j = none) :
    decode_vpn_url decomp loads ("vpn://" ++ String.mk (b64encode bs)) = .ok j := by
  rw [decode_vpn_encoded decomp loads _ (b64encode_not_space _) (b64encode_length_mod4 _)]
  rw [b64decode_b64encode _ hbytes]
  show decodeRaw decomp loads bs = .ok j
  have hattempt :
      (if 4 ≤ bs.length then
        match decomp (bs.drop 4) with
        | some dec =>
          if dec.length = beRead4 (bs.take 4) then loadsBytes loads dec else none
        | none => none
      else none : Option Json) = none := by
    rcases hfail with h | h
    · rw [if_neg (by omega)]
    · by_cases h4 : 4 ≤ bs.length
      · rw [if_pos h4]
        cases hd : decomp (bs.drop 4) with
        | none => rfl
        | some d =>
          show (if d.length = beRead4 (bs.take 4) then loadsBytes loads d else none) = none
          rw [if_neg (h d hd)]
      · rw [if_neg h4]
  simp only [decodeRaw, hattempt, hload]
  simp [unwrap, hwrap]

/-- C3 witness: the bare token of `[1]` (three bytes, so the compressed
interpretation is impossible) decodes to `[1]` via the fallback. -/
theorem c3_bare_fallback_amended_witness :
    (∀ b ∈ asciiBytes "[1]", b < 256) ∧
    loadsBytes loadsDemo (asciiBytes "[1]") = some (.arr [.num 1]) ∧
    (asciiBytes "[1]").length < 4 ∧
    wrapPath (Json.arr [.num 1]) = none ∧
    decode_vpn_url decompNone loadsDemo
      ("vpn://" ++ String.mk (b64encode (asciiBytes "[1]"))) = .ok (.arr [.num 1]) :=
  ⟨by decide, rfl, by decide, rfl,
   c3_bare_fallback_amended decompNone loadsDemo (.arr [.num 1]) (asciiBytes "[1]")
     (by decide) rfl (.inl (by decide)) rfl⟩

/-! ### Claim C9 — padding insensitivity -/

/-- C9 (confirmed): decoding is insensitive to missing trailing `=`
padding — for every byte string, stripping any `k` of the (at most two)
padding characters from its base64url encoding leaves the decode result
unchanged, because the token is right-padded back to a multiple of four
before base64 decoding. -/
theorem c9_padding_insensitive (bs : List Nat) (k : Nat)
    (hk : k ≤ b64padCount bs.length)
    (decomp : List Nat → Option (List Nat)) (loads : String → Option Json) :
    decode_vpn_url decomp loads
        ("vpn://" ++ String.mk ((b64encode bs).take ((b64encode bs).length - k))) =
      decode_vpn_url decomp loads ("vpn://" ++ String.mk (b64encode bs)) := by
  have hsub : ∀ c ∈ (b64encode bs).take ((b64encode bs).length - k), pySpace c = false :=
    fun c hc => b64encode_not_space bs c (List.take_subset _ _ hc)
  simp only [decode_vpn_url]
  rw [if_neg (show ¬(("vpn://" ++
      String.mk ((b64encode bs).take ((b64encode bs).length - k))).data.take 6 ≠
      "vpn://".data) from fun h => h rfl)]
  rw [if_neg (show ¬(("vpn://" ++ String.mk (b64encode bs)).data.take 6 ≠
      "vpn://".data) from fun h => h rfl)]
  simp only [show ("vpn://" ++
      String.mk ((b64encode bs).take ((b64encode bs).length - k))).data.drop 6 =
      (b64encode bs).take ((b64encode bs).length - k) from rfl,
    show ("vpn://" ++ String.mk (b64encode bs)).data.drop 6 = b64encode bs from rfl,
    pyStrip_id hsub, pyStrip_id (b64encode_not_space bs)]
  rw [repad_take bs k hk]
  simp [b64encode_length_mod4 bs]

/-- C9 witness: stripping the single padding character from the
encoding of a two-byte buffer leaves the decode result unchanged (and
both runs evaluate to the same concrete result). -/
theorem c9_padding_insensitive_witness :
    1 ≤ b64padCount ([1, 2] : List Nat).length ∧
    decode_vpn_url decompNone loadsDemo ("vpn://" ++ String.mk
        ((b64encode [1, 2]).take ((b64encode [1, 2]).length - 1))) =
      decode_vpn_url decompNone loadsDemo ("vpn://" ++ String.mk (b64encode [1, 2])) ∧
    decode_vpn_url decompNone loadsDemo ("vpn://" ++ String.mk (b64encode [1, 2])) =
      .error (.valueError "JSON decode error") :=
  ⟨by decide, c9_padding_insensitive [1, 2] 1 (by decide) decompNone loadsDemo, rfl⟩

end VlessLinker
